import Mathlib

/-!
Shallow embedding of the chessclock repository's timer core.

Durations (Rust `std::time::Duration`, millisecond resolution here) are
modelled as `Int` with an explicit saturating subtraction, so that
"never below zero" is a real property rather than an artifact of `Nat`.

Two clock iterations exist in the source and both are embedded:
* `Clock` (src/clock.rs): state machine with `NotStarted | Pause | Player p`.
* `app.Clock` / `app.App` (src/app.rs): the wired controller with its own
  simpler clock (`NotStarted | Player1 | Player2`), the event queue and the
  run-loop dispatch.  Panicking code paths (`todo!()`) are modelled as
  `Option` results (`none` = panic).  Events posted via `events.send` are
  appended to a `pending` list.
-/

/-- src/event.rs: `pub(crate) const TIMER_TICK: u64 = 10;` (milliseconds). -/
def TIMER_TICK : Int := 10

/-- Rust `Duration::saturating_sub` on millisecond values. -/
def saturatingSub (a b : Int) : Int := max (a - b) 0

/-- src/clock.rs `enum Player`. -/
inductive Player
| player1
| player2
deriving DecidableEq

/-- The opponent of a player (used to state alternation; not a source fn). -/
def Player.other : Player → Player
| .player1 => .player2
| .player2 => .player1

/-- src/clock.rs `enum ClockState`. -/
inductive ClockState
| notStarted
| pause
| player (p : Player)
deriving DecidableEq

/-- src/tabs.rs `enum TimeCtrl` (the four selectable time controls). -/
inductive TimeCtrl
| tab1
| tab2
| tab3
| tab4
deriving DecidableEq

/-- Discriminant of `TimeCtrl` (`*self as usize`). -/
def TimeCtrl.idx : TimeCtrl → Nat
| .tab1 => 0
| .tab2 => 1
| .tab3 => 2
| .tab4 => 3

/-- src/tabs.rs `TimeCtrl::from_repr` (derived `FromRepr`). -/
def TimeCtrl.from_repr : Nat → Option TimeCtrl
| 0 => some .tab1
| 1 => some .tab2
| 2 => some .tab3
| 3 => some .tab4
| _ => none

/-- src/tabs.rs `TimeCtrl::previous`. -/
def TimeCtrl.previous (t : TimeCtrl) : TimeCtrl :=
  (TimeCtrl.from_repr (t.idx - 1)).getD t

/-- src/tabs.rs `TimeCtrl::next`. -/
def TimeCtrl.next (t : TimeCtrl) : TimeCtrl :=
  (TimeCtrl.from_repr (t.idx + 1)).getD t

/-- src/tabs.rs `TimeCtrl::to_duration`, in milliseconds:
`(base, increment)`. -/
def TimeCtrl.to_duration : TimeCtrl → Int × Int
| .tab1 => (180000, 2000)
| .tab2 => (60000, 0)
| .tab3 => (300000, 2000)
| .tab4 => (600000, 0)

/-- src/clock.rs `struct Clock` (times in milliseconds). -/
structure Clock where
  player1 : Int
  player2 : Int
  state : ClockState
  resume_player : Player
  first_to_move : Player
  increment : Int
  time_ctrl : TimeCtrl
deriving DecidableEq

/-- src/clock.rs `Clock::set`. -/
def Clock.set (c : Clock) (ctrl : TimeCtrl) : Clock :=
  { c with
    time_ctrl := ctrl
    player1 := ctrl.to_duration.1
    player2 := ctrl.to_duration.1
    increment := ctrl.to_duration.2
    state := ClockState.notStarted }

/-- src/clock.rs `Clock::curr_player`. -/
def Clock.curr_player (c : Clock) : Option Player :=
  match c.state with
  | .player p => some p
  | _ => none

/-- src/clock.rs `Clock::hit`. -/
def Clock.hit (c : Clock) : Clock :=
  match c.state with
  | .notStarted => { c with state := ClockState.player c.first_to_move }
  | .pause => c
  | .player .player1 =>
      { c with state := ClockState.player Player.player2
               player1 := c.player1 + c.increment }
  | .player .player2 =>
      { c with state := ClockState.player Player.player1
               player2 := c.player2 + c.increment }

/-- src/clock.rs `Clock::tick_timer`: subtract `TIMER_TICK` ms from the
active player's time, saturating at zero. -/
def Clock.tick_timer (c : Clock) : Clock :=
  match c.state with
  | .notStarted => c
  | .pause => c
  | .player .player1 => { c with player1 := saturatingSub c.player1 TIMER_TICK }
  | .player .player2 => { c with player2 := saturatingSub c.player2 TIMER_TICK }

/-- src/clock.rs `Clock::is_time_out`. -/
def Clock.is_time_out (c : Clock) : Bool :=
  c.player1 == 0 || c.player2 == 0

/-- src/clock.rs `Clock::pause` (note: takes the resume player as an
argument; toggles out of `Pause` using the stored `resume_player`). -/
def Clock.pause (c : Clock) (resume_player : Player) : Clock :=
  match c.state with
  | .pause => { c with state := ClockState.player c.resume_player }
  | _ => { c with resume_player := resume_player, state := ClockState.pause }

/-- src/clock.rs `Clock::flip_first_to_move`. -/
def Clock.flip_first_to_move (c : Clock) : Clock :=
  { c with first_to_move := c.first_to_move.other }

/-- Remaining time of a given player (projection helper for statements). -/
def Clock.remaining (c : Clock) : Player → Int
| .player1 => c.player1
| .player2 => c.player2

/-- `n` successive `tick_timer` calls. -/
def Clock.tickN (c : Clock) : Nat → Clock
| 0 => c
| n + 1 => (c.tickN n).tick_timer

/-- `n` successive `hit` calls. -/
def Clock.hitN (c : Clock) : Nat → Clock
| 0 => c
| n + 1 => (c.hitN n).hit

namespace app

/-- src/app.rs `enum ClockTurn`. -/
inductive ClockTurn
| notStarted
| player1
| player2
deriving DecidableEq

/-- src/app.rs `struct Clock` (the controller's own clock iteration). -/
structure Clock where
  player1 : Int
  player2 : Int
  turn : ClockTurn
  increment : Int
  time_ctrl : Int × Int
deriving DecidableEq

/-- src/app.rs `enum Screen`. -/
inductive Screen
| main
| pickTimeCtrl (s : TimeCtrl)
| timeOut
deriving DecidableEq

/-- Subset of crossterm `KeyCode` the program inspects. -/
inductive KeyCode
| esc
| char (ch : Char)
| left
| right
| enter
| otherKey
deriving DecidableEq

/-- Crossterm `KeyEvent`: key code plus whether the modifier set equals
exactly `KeyModifiers::CONTROL`. -/
structure KeyEvent where
  code : KeyCode
  ctrl : Bool
deriving DecidableEq

/-- src/event.rs `enum AppEvent`. -/
inductive AppEvent
| timeout
| hitClock
| quit
deriving DecidableEq

/-- Crossterm events: a key event or anything else (resize, ...). -/
inductive CrosstermEvent
| key (k : KeyEvent)
| otherEvent
deriving DecidableEq

/-- src/event.rs `enum Event`. -/
inductive Event
| tick
| timerTick
| crossterm (e : CrosstermEvent)
| app (e : AppEvent)
deriving DecidableEq

/-- src/tabs.rs `TimeCtrl::handle_key_events` (picker navigation). -/
def handleTabKey (t : TimeCtrl) (k : KeyEvent) : TimeCtrl :=
  match k.code with
  | .right => t.next
  | .left => t.previous
  | _ => t

/-- src/app.rs `struct App`; `pending` models the events this struct has
posted into its own queue via `events.send`, in order. -/
structure App where
  screen : Screen
  timeout : Bool
  running : Bool
  clock : Clock
  pending : List AppEvent
deriving DecidableEq

/-- src/app.rs `App::quit`. -/
def App.quit (a : App) : App := { a with running := false }

/-- src/app.rs `App::hit_clock`. -/
def App.hit_clock (a : App) : App :=
  match a.clock.turn with
  | .notStarted => { a with clock := { a.clock with turn := ClockTurn.player1 } }
  | .player1 =>
      { a with clock := { a.clock with
          turn := ClockTurn.player2
          player1 := a.clock.player1 + a.clock.increment } }
  | .player2 =>
      { a with clock := { a.clock with
          turn := ClockTurn.player1
          player2 := a.clock.player2 + a.clock.increment } }

/-- src/app.rs `App::tick_timer`: if either remaining time is already zero,
post `Timeout` and return without ticking; otherwise decrement the active
player's time (saturating) and post nothing. -/
def App.tick_timer (a : App) : App :=
  if a.clock.player1 = 0 ∨ a.clock.player2 = 0 then
    { a with pending := a.pending ++ [AppEvent.timeout] }
  else
    match a.clock.turn with
    | .notStarted => a
    | .player1 =>
        { a with clock := { a.clock with
            player1 := saturatingSub a.clock.player1 TIMER_TICK } }
    | .player2 =>
        { a with clock := { a.clock with
            player2 := saturatingSub a.clock.player2 TIMER_TICK } }

/-- src/app.rs `App::handle_key_events`.  The `Screen::Main` and
`Screen::TimeOut` arms are `todo!()` in the source, i.e. they panic:
modelled as `none`.  In `PickTimeCtrl` the key is first routed to the
picker, then quit keys (`Esc`, any `'q'`, Ctrl-`'c'`/`'C'`) post
`AppEvent::Quit`. -/
def App.handle_key_events (a : App) (k : KeyEvent) : Option App :=
  match a.screen with
  | .main => none
  | .timeOut => none
  | .pickTimeCtrl s =>
      let a' : App := { a with screen := Screen.pickTimeCtrl (handleTabKey s k) }
      match k.code with
      | .esc => some { a' with pending := a'.pending ++ [AppEvent.quit] }
      | .char ch =>
          if ch == 'q' then
            some { a' with pending := a'.pending ++ [AppEvent.quit] }
          else if (ch == 'c' || ch == 'C') && k.ctrl then
            some { a' with pending := a'.pending ++ [AppEvent.quit] }
          else some a'
      | _ => some a'

/-- One iteration of the `App::run` event-dispatch loop body (src/app.rs
lines 87-101), minus drawing; `none` models a panic inside the handler. -/
def App.step (a : App) (e : Event) : Option App :=
  match e with
  | .tick => some a
  | .timerTick => some a.tick_timer
  | .crossterm ce =>
      match ce with
      | .key k => a.handle_key_events k
      | .otherEvent => some a
  | .app ae =>
      match ae with
      | .timeout => some a.quit
      | .hitClock => some a.hit_clock
      | .quit => some a.quit

end app

/-! ## Helper lemmas about saturating subtraction -/

lemma saturatingSub_nonneg (a b : Int) : 0 ≤ saturatingSub a b :=
  le_max_right _ _

lemma saturatingSub_of_le (a b : Int) (h : a ≤ b) : saturatingSub a b = 0 := by
  unfold saturatingSub
  rw [max_eq_right (show a - b ≤ 0 by omega)]

lemma saturatingSub_le_self (a b : Int) (ha : 0 ≤ a) (hb : 0 ≤ b) :
    saturatingSub a b ≤ a := by
  unfold saturatingSub
  rw [max_le_iff]
  exact ⟨by omega, ha⟩

/-- Single-tick preservation of nonnegativity and of being exactly zero. -/
lemma tick_timer_pres (c : Clock) :
    (0 ≤ c.player1 → 0 ≤ c.tick_timer.player1) ∧
    (0 ≤ c.player2 → 0 ≤ c.tick_timer.player2) ∧
    (c.player1 = 0 → c.tick_timer.player1 = 0) ∧
    (c.player2 = 0 → c.tick_timer.player2 = 0) := by
  obtain ⟨p1, p2, st, rp, ftm, inc, tc⟩ := c
  rcases st with _ | _ | p
  · exact ⟨fun h => h, fun h => h, fun h => h, fun h => h⟩
  · exact ⟨fun h => h, fun h => h, fun h => h, fun h => h⟩
  · cases p
    · refine ⟨fun _ => saturatingSub_nonneg _ _, fun h => h, fun h => ?_, fun h => h⟩
      simp only [Clock.tick_timer] at *
      rw [h]
      decide
    · refine ⟨fun h => h, fun _ => saturatingSub_nonneg _ _, fun h => h, fun h => ?_⟩
      simp only [Clock.tick_timer] at *
      rw [h]
      decide

/-! ## Claim theorems on the src/clock.rs model -/

/-- Claim C2: `tick_timer` never reduces remaining times below zero,
a decrement at least as large as the remaining time saturates at exactly
zero, and repeated ticks past zero keep the remaining time at exactly
zero. -/
theorem tick_saturation (c : Clock) (n : Nat) :
    (0 ≤ c.player1 → 0 ≤ (c.tickN n).player1) ∧
    (0 ≤ c.player2 → 0 ≤ (c.tickN n).player2) ∧
    (c.player1 = 0 → (c.tickN n).player1 = 0) ∧
    (c.player2 = 0 → (c.tickN n).player2 = 0) ∧
    (∀ p, c.state = ClockState.player p → c.remaining p ≤ TIMER_TICK →
      c.tick_timer.remaining p = 0) := by
  have sat : ∀ p, c.state = ClockState.player p → c.remaining p ≤ TIMER_TICK →
      c.tick_timer.remaining p = 0 := by
    obtain ⟨p1, p2, st, rp, ftm, inc, tc⟩ := c
    intro p hst hle
    have hst' : st = ClockState.player p := hst
    subst hst'
    rcases p with _ | _
    · exact saturatingSub_of_le _ _ hle
    · exact saturatingSub_of_le _ _ hle
  refine ⟨?_, ?_, ?_, ?_, sat⟩ <;>
  · induction n with
    | zero => exact fun h => h
    | succ n ih =>
      intro h
      have hp := tick_timer_pres (c.tickN n)
      first
        | exact hp.1 (ih h)
        | exact hp.2.1 (ih h)
        | exact hp.2.2.1 (ih h)
        | exact hp.2.2.2 (ih h)

/-- Concrete clock used for the C2 witness. -/
def clockC2 : Clock :=
  ⟨7, 4000, ClockState.player Player.player1, Player.player1, Player.player1,
   2000, TimeCtrl.tab1⟩

/-- Concrete clock with both remaining times at zero, for the C2 witness. -/
def clockC2z : Clock :=
  ⟨0, 0, ClockState.player Player.player1, Player.player1, Player.player1,
   2000, TimeCtrl.tab1⟩

/-- Witness for C2 at concrete clocks: 7 ms left for the active player stays
nonnegative over 5 ticks and one tick saturates it to exactly zero; a clock
already at zero stays at exactly zero over 3 further ticks. -/
theorem tick_saturation_witness :
    0 ≤ clockC2.player1 ∧ 0 ≤ (clockC2.tickN 5).player1 ∧
    0 ≤ clockC2.player2 ∧ 0 ≤ (clockC2.tickN 5).player2 ∧
    clockC2.state = ClockState.player Player.player1 ∧
    clockC2.remaining Player.player1 ≤ TIMER_TICK ∧
    clockC2.tick_timer.remaining Player.player1 = 0 ∧
    clockC2z.player1 = 0 ∧ (clockC2z.tickN 3).player1 = 0 ∧
    clockC2z.player2 = 0 ∧ (clockC2z.tickN 3).player2 = 0 :=
  ⟨by decide, (tick_saturation clockC2 5).1 (by decide),
   by decide, (tick_saturation clockC2 5).2.1 (by decide),
   rfl, by decide,
   (tick_saturation clockC2 5).2.2.2.2 Player.player1 rfl (by decide),
   rfl, (tick_saturation clockC2z 3).2.2.1 rfl,
   rfl, (tick_saturation clockC2z 3).2.2.2.1 rfl⟩

/-- Claim C5: `hit` while a player is active adds the increment to exactly
that player's remaining time and leaves the other player's unchanged. -/
theorem hit_increment_correct (c : Clock) :
    (c.state = ClockState.player Player.player1 →
      c.hit.player1 = c.player1 + c.increment ∧ c.hit.player2 = c.player2) ∧
    (c.state = ClockState.player Player.player2 →
      c.hit.player2 = c.player2 + c.increment ∧ c.hit.player1 = c.player1) := by
  obtain ⟨p1, p2, st, rp, ftm, inc, tc⟩ := c
  rcases st with _ | _ | q
  · exact ⟨fun h => (nomatch h), fun h => (nomatch h)⟩
  · exact ⟨fun h => (nomatch h), fun h => (nomatch h)⟩
  · rcases q with _ | _
    · exact ⟨fun _ => ⟨rfl, rfl⟩, fun h => (nomatch h)⟩
    · exact ⟨fun h => (nomatch h), fun _ => ⟨rfl, rfl⟩⟩

/-- Concrete clock used for the C5 witness. -/
def clockC5 : Clock :=
  ⟨3000, 4000, ClockState.player Player.player1, Player.player1, Player.player1,
   2000, TimeCtrl.tab1⟩

/-- Witness for C5: with player 1 active, `hit` yields 3000 + 2000 for
player 1 and leaves player 2 at 4000. -/
theorem hit_increment_correct_witness :
    clockC5.state = ClockState.player Player.player1 ∧
    clockC5.hit.player1 = clockC5.player1 + clockC5.increment ∧
    clockC5.hit.player2 = clockC5.player2 :=
  ⟨rfl, (hit_increment_correct clockC5).1 rfl⟩

/-- Claim C8: one `tick_timer` call never changes the turn, the increment,
the configured time control, the resume player or the first mover; it is
the identity in `NotStarted`/`Pause`, and when a player is active it can
only decrease that player's remaining time, leaving the other player's
remaining time unchanged. -/
theorem tick_frame_condition (c : Clock) (h1 : 0 ≤ c.player1)
    (h2 : 0 ≤ c.player2) :
    c.tick_timer.state = c.state ∧
    c.tick_timer.increment = c.increment ∧
    c.tick_timer.time_ctrl = c.time_ctrl ∧
    c.tick_timer.resume_player = c.resume_player ∧
    c.tick_timer.first_to_move = c.first_to_move ∧
    ((c.state = ClockState.notStarted ∨ c.state = ClockState.pause) →
      c.tick_timer = c) ∧
    (∀ p, c.state = ClockState.player p →
      c.tick_timer.remaining p ≤ c.remaining p ∧
      c.tick_timer.remaining p.other = c.remaining p.other) := by
  obtain ⟨p1, p2, st, rp, ftm, inc, tc⟩ := c
  rcases st with _ | _ | q
  · exact ⟨rfl, rfl, rfl, rfl, rfl, fun _ => rfl, fun p h => (nomatch h)⟩
  · exact ⟨rfl, rfl, rfl, rfl, rfl, fun _ => rfl, fun p h => (nomatch h)⟩
  · rcases q with _ | _
    · refine ⟨rfl, rfl, rfl, rfl, rfl, ?_, ?_⟩
      · rintro (h | h) <;> exact (nomatch h)
      · intro p h
        have h' : ClockState.player Player.player1 = ClockState.player p := h
        cases h'
        exact ⟨saturatingSub_le_self _ _ h1 (by decide), rfl⟩
    · refine ⟨rfl, rfl, rfl, rfl, rfl, ?_, ?_⟩
      · rintro (h | h) <;> exact (nomatch h)
      · intro p h
        have h' : ClockState.player Player.player2 = ClockState.player p := h
        cases h'
        exact ⟨saturatingSub_le_self _ _ h2 (by decide), rfl⟩

/-- Concrete clock used for the C8 witness. -/
def clockC8 : Clock :=
  ⟨3000, 4000, ClockState.player Player.player2, Player.player1,
   Player.player1, 2000, TimeCtrl.tab1⟩

/-- Witness for C8 at a concrete clock with player 2 active. -/
theorem tick_frame_condition_witness :
    0 ≤ clockC8.player1 ∧ 0 ≤ clockC8.player2 ∧
    clockC8.tick_timer.state = clockC8.state ∧
    clockC8.state = ClockState.player Player.player2 ∧
    clockC8.tick_timer.remaining Player.player2 ≤
      clockC8.remaining Player.player2 ∧
    clockC8.tick_timer.remaining Player.player2.other =
      clockC8.remaining Player.player2.other :=
  ⟨by decide, by decide,
   (tick_frame_condition clockC8 (by decide) (by decide)).1,
   rfl,
   ((tick_frame_condition clockC8 (by decide) (by decide)).2.2.2.2.2.2
     Player.player2 rfl).1,
   ((tick_frame_condition clockC8 (by decide) (by decide)).2.2.2.2.2.2
     Player.player2 rfl).2⟩

/-- `hit` on a clock with an active player activates the opponent. -/
lemma hit_state_of_player (c : Clock) (p : Player)
    (h : c.state = ClockState.player p) :
    c.hit.state = ClockState.player p.other := by
  obtain ⟨p1, p2, st, rp, ftm, inc, tc⟩ := c
  have h' : st = ClockState.player p := h
  subst h'
  rcases p with _ | _ <;> rfl

/-- Claim C6: from `NotStarted`, after `n + 1` successive `hit` calls the
active player is `first_to_move` when `n` is even and the opponent when `n`
is odd: the active player strictly alternates starting at
`first_to_move`. -/
theorem hit_alternation (c : Clock) (n : Nat)
    (h : c.state = ClockState.notStarted) :
    (c.hitN (n + 1)).state =
      ClockState.player
        (if n % 2 = 0 then c.first_to_move else c.first_to_move.other) := by
  induction n with
  | zero =>
    show (c.hitN 0).hit.state = _
    obtain ⟨p1, p2, st, rp, ftm, inc, tc⟩ := c
    have h' : st = ClockState.notStarted := h
    subst h'
    rfl
  | succ n ih =>
    show (c.hitN (n + 1)).hit.state = _
    rw [hit_state_of_player (c.hitN (n + 1)) _ ih]
    rcases Nat.mod_two_eq_zero_or_one n with h2 | h2
    · have h3 : (n + 1) % 2 = 1 := by omega
      rw [h2, h3]
      simp
    · have h3 : (n + 1) % 2 = 0 := by omega
      rw [h2, h3]
      simp only [if_pos rfl, if_neg (by decide : (1 : Nat) ≠ 0)]
      cases hc : c.first_to_move <;> rfl

/-- Concrete clock used for the C6 witness. -/
def clockC6 : Clock :=
  ⟨60000, 60000, ClockState.notStarted, Player.player1, Player.player1,
   0, TimeCtrl.tab2⟩

/-- Witness for C6: three hits from `NotStarted` with player 1 first to
move end with player 1 active again (`P1 → P2 → P1`). -/
theorem hit_alternation_witness :
    clockC6.state = ClockState.notStarted ∧
    (clockC6.hitN 3).state =
      ClockState.player
        (if 2 % 2 = 0 then clockC6.first_to_move
         else clockC6.first_to_move.other) :=
  ⟨rfl, hit_alternation clockC6 2 rfl⟩

/-- Timed-out clock (player 1 at zero, player 1 active) used for C1. -/
def clockC1 : Clock :=
  ⟨0, 5000, ClockState.player Player.player1, Player.player1, Player.player1,
   2000, TimeCtrl.tab1⟩

/-- Claim C1 counterexample: on a clock where `is_time_out` holds (player 1
at zero, player 1 active), `hit` is not a no-op: it switches the turn to
player 2 and adds the increment to player 1's remaining time. -/
theorem timeout_freeze_cex :
    clockC1.is_time_out = true ∧
    clockC1.hit.state ≠ clockC1.state ∧
    clockC1.hit.player1 ≠ clockC1.player1 := by decide

/-- Claim C1 (amended): once `is_time_out` is true, a further `tick_timer`
call leaves the turn unchanged and leaves any player whose remaining time
is zero at exactly zero; `hit` is not frozen by a timeout. -/
theorem timeout_tick_freezes_zero (c : Clock) (h : c.is_time_out = true) :
    c.tick_timer.state = c.state ∧
    (c.player1 = 0 → c.tick_timer.player1 = 0) ∧
    (c.player2 = 0 → c.tick_timer.player2 = 0) := by
  obtain ⟨p1, p2, st, rp, ftm, inc, tc⟩ := c
  rcases st with _ | _ | q
  · exact ⟨rfl, fun h1 => h1, fun h2 => h2⟩
  · exact ⟨rfl, fun h1 => h1, fun h2 => h2⟩
  · rcases q with _ | _
    · refine ⟨rfl, fun h1 => ?_, fun h2 => h2⟩
      have h1' : p1 = 0 := h1
      show saturatingSub p1 TIMER_TICK = 0
      rw [h1']
      decide
    · refine ⟨rfl, fun h1 => h1, fun h2 => ?_⟩
      have h2' : p2 = 0 := h2
      show saturatingSub p2 TIMER_TICK = 0
      rw [h2']
      decide

/-- Witness for the amended C1 at the timed-out clock `clockC1`. -/
theorem timeout_tick_freezes_zero_witness :
    clockC1.is_time_out = true ∧
    clockC1.tick_timer.state = clockC1.state ∧
    clockC1.player1 = 0 ∧ clockC1.tick_timer.player1 = 0 :=
  ⟨rfl, (timeout_tick_freezes_zero clockC1 rfl).1, rfl,
   (timeout_tick_freezes_zero clockC1 rfl).2.1 rfl⟩

/-- Clock with player 1 active used for C7. -/
def clockC7 : Clock :=
  ⟨3000, 4000, ClockState.player Player.player1, Player.player1,
   Player.player1, 2000, TimeCtrl.tab1⟩

/-- Claim C7 counterexample: player 1 is active, yet
`pause(Player2)` followed by `pause(...)` leaves player 2 active — the
double toggle restores the argument of the first `pause` call, not
necessarily the player who was active. -/
theorem pause_pause_cex :
    clockC7.state = ClockState.player Player.player1 ∧
    ((clockC7.pause Player.player2).pause Player.player1).state =
      ClockState.player Player.player2 := by decide

/-- Claim C7 (amended): if a player is active and `pause q` is called
followed by another `pause` call with any argument, the player `q` recorded
by the first call becomes active; in particular, calling the first `pause`
with the currently active player restores exactly that player. -/
theorem pause_pause_restores_argument (c : Clock) (p q r : Player)
    (h : c.state = ClockState.player p) :
    ((c.pause q).pause r).state = ClockState.player q := by
  obtain ⟨p1, p2, st, rp, ftm, inc, tc⟩ := c
  have h' : st = ClockState.player p := h
  subst h'
  rfl

/-- Witness for the amended C7: passing the active player (player 1) to the
first `pause` makes the double toggle restore player 1. -/
theorem pause_pause_restores_argument_witness :
    clockC7.state = ClockState.player Player.player1 ∧
    ((clockC7.pause Player.player1).pause Player.player2).state =
      ClockState.player Player.player1 :=
  ⟨rfl, pause_pause_restores_argument clockC7 Player.player1 Player.player1
    Player.player2 rfl⟩

/-- Claim C10: `pause p` is accepted from `NotStarted`: it sets the state
to `Pause` and records `p` as the resume player, and a second `pause` call
then makes `p` the active player — the clock reaches a running player state
without any `hit`. -/
theorem pause_from_not_started (c : Clock) (p q : Player)
    (h : c.state = ClockState.notStarted) :
    (c.pause p).state = ClockState.pause ∧
    (c.pause p).resume_player = p ∧
    ((c.pause p).pause q).state = ClockState.player p := by
  obtain ⟨p1, p2, st, rp, ftm, inc, tc⟩ := c
  have h' : st = ClockState.notStarted := h
  subst h'
  exact ⟨rfl, rfl, rfl⟩

/-- Fresh clock in `NotStarted` used for the C10 witness. -/
def clockC10 : Clock :=
  ⟨180000, 180000, ClockState.notStarted, Player.player1, Player.player1,
   2000, TimeCtrl.tab1⟩

/-- Witness for C10 at a fresh `NotStarted` clock. -/
theorem pause_from_not_started_witness :
    clockC10.state = ClockState.notStarted ∧
    (clockC10.pause Player.player2).state = ClockState.pause ∧
    (clockC10.pause Player.player2).resume_player = Player.player2 ∧
    ((clockC10.pause Player.player2).pause Player.player1).state =
      ClockState.player Player.player2 :=
  ⟨rfl, pause_from_not_started clockC10 Player.player2 Player.player1 rfl⟩

/-! ## Claim theorems on the src/app.rs controller -/

/-- App in the `Main` screen used for the C3 counterexample. -/
def appC3 : app.App :=
  ⟨app.Screen.main, false, true,
   ⟨40000, 65000, app.ClockTurn.player1, 2000, (180000, 2000)⟩, []⟩

/-- Claim C3 counterexample: handling a `Timeout` application event in the
`Main` (running) screen leaves the screen unchanged (it does not become
`TimeOut`) and sets `running` to false, terminating the loop. -/
theorem timeout_event_cex :
    (appC3.step (app.Event.app app.AppEvent.timeout)).map app.App.screen =
      some app.Screen.main ∧
    (appC3.step (app.Event.app app.AppEvent.timeout)).map app.App.running =
      some false := by decide

/-- Claim C3 (amended): in every screen state, handling a `Timeout`
application event calls `quit`, which sets `running` to false and changes
nothing else — the screen state is left unchanged. -/
theorem timeout_event_sets_running_false (a : app.App) :
    a.step (app.Event.app app.AppEvent.timeout) =
      some { a with running := false } := rfl

/-- App one tick away from timeout used for the C4 counterexample. -/
def appC4 : app.App :=
  ⟨app.Screen.pickTimeCtrl TimeCtrl.tab1, false, true,
   ⟨10, 5000, app.ClockTurn.player1, 2000, (180000, 2000)⟩, []⟩

/-- Claim C4 counterexample: the `TimerTick` that reduces player 1's
remaining time from 10 ms to exactly zero posts no event in that same
handling step — the `Timeout` is only posted by a later `TimerTick`. -/
theorem timer_tick_crossing_cex :
    appC4.tick_timer.clock.player1 = 0 ∧
    appC4.tick_timer.pending = [] ∧
    appC4.tick_timer.tick_timer.pending = [app.AppEvent.timeout] := by decide

/-- Claim C4 (amended): `tick_timer` checks for a zero remaining time
before ticking: if either player's remaining time is already zero it posts
a `Timeout` event and leaves the clock untouched; otherwise it only ticks
the clock and posts no event, so the `Timeout` is posted by the first
`TimerTick` handled after a remaining time has reached zero. -/
theorem timer_tick_checks_timeout_first (a : app.App) :
    ((a.clock.player1 = 0 ∨ a.clock.player2 = 0) →
      a.tick_timer = { a with pending := a.pending ++ [app.AppEvent.timeout] }) ∧
    (a.clock.player1 ≠ 0 → a.clock.player2 ≠ 0 →
      a.tick_timer.pending = a.pending ∧
      a.tick_timer.screen = a.screen ∧
      a.tick_timer.running = a.running ∧
      a.tick_timer.clock.turn = a.clock.turn) := by
  constructor
  · intro h
    unfold app.App.tick_timer
    rw [if_pos h]
  · intro h1 h2
    have hcond : ¬(a.clock.player1 = 0 ∨ a.clock.player2 = 0) := by
      rintro (h | h)
      · exact h1 h
      · exact h2 h
    have e : a.tick_timer =
        (match a.clock.turn with
         | app.ClockTurn.notStarted => a
         | app.ClockTurn.player1 =>
             { a with clock := { a.clock with
                 player1 := saturatingSub a.clock.player1 TIMER_TICK } }
         | app.ClockTurn.player2 =>
             { a with clock := { a.clock with
                 player2 := saturatingSub a.clock.player2 TIMER_TICK } }) := by
      unfold app.App.tick_timer
      rw [if_neg hcond]
    rw [e]
    rcases htn : a.clock.turn with _ | _ | _ <;>
      rw [htn] <;> exact ⟨rfl, rfl, rfl, rfl⟩

/-- Timed-out app (player 1 at zero) used for the C4 witness. -/
def appC4z : app.App :=
  ⟨app.Screen.pickTimeCtrl TimeCtrl.tab1, false, true,
   ⟨0, 5000, app.ClockTurn.player1, 2000, (180000, 2000)⟩, []⟩

/-- Witness for the amended C4: with player 1 already at zero,
`tick_timer` appends exactly a `Timeout` event; with nobody at zero (as in
`appC4`), it posts nothing and preserves screen, running flag and turn. -/
theorem timer_tick_checks_timeout_first_witness :
    (appC4z.clock.player1 = 0 ∨ appC4z.clock.player2 = 0) ∧
    appC4z.tick_timer =
      { appC4z with pending := appC4z.pending ++ [app.AppEvent.timeout] } ∧
    appC4.clock.player1 ≠ 0 ∧ appC4.clock.player2 ≠ 0 ∧
    appC4.tick_timer.pending = appC4.pending ∧
    appC4.tick_timer.screen = appC4.screen ∧
    appC4.tick_timer.running = appC4.running ∧
    appC4.tick_timer.clock.turn = appC4.clock.turn :=
  ⟨Or.inl rfl,
   (timer_tick_checks_timeout_first appC4z).1 (Or.inl rfl),
   by decide, by decide,
   ((timer_tick_checks_timeout_first appC4).2 (by decide) (by decide)).1,
   ((timer_tick_checks_timeout_first appC4).2 (by decide) (by decide)).2.1,
   ((timer_tick_checks_timeout_first appC4).2 (by decide) (by decide)).2.2.1,
   ((timer_tick_checks_timeout_first appC4).2 (by decide) (by decide)).2.2.2⟩

/-- App in the `Main` screen used for the C9 counterexample. -/
def appC9 : app.App :=
  ⟨app.Screen.main, false, true,
   ⟨40000, 65000, app.ClockTurn.notStarted, 2000, (180000, 2000)⟩, []⟩

/-- The Esc key press with no modifiers. -/
def keyEsc : app.KeyEvent := ⟨app.KeyCode.esc, false⟩

/-- Claim C9 counterexample: in the `Main` screen state, handling the Esc
quit key panics (the `Screen::Main` arm of `handle_key_events` is
`todo!()`), modelled as `none` — the loop is not terminated cleanly. -/
theorem quit_key_panics_cex :
    appC9.handle_key_events keyEsc = none ∧
    appC9.step (app.Event.crossterm (app.CrosstermEvent.key keyEsc)) =
      none := by decide

/-- Claim C9 (amended): in the `PickTimeCtrl` screen state — the only
screen the controller ever occupies — handling a quit key press (Esc, any
'q', or Ctrl-'c'/'C') routes the key to the picker and posts a `Quit`
application event, and handling that `Quit` event sets `running` to false,
terminating the loop; in the `Main` and `TimeOut` screen states
`handle_key_events` is `todo!()` and panics. -/
theorem quit_key_in_picker_posts_quit (a : app.App) (s : TimeCtrl)
    (k : app.KeyEvent) (hs : a.screen = app.Screen.pickTimeCtrl s)
    (hk : k.code = app.KeyCode.esc ∨ k.code = app.KeyCode.char 'q' ∨
      (k.ctrl = true ∧
        (k.code = app.KeyCode.char 'c' ∨ k.code = app.KeyCode.char 'C'))) :
    a.handle_key_events k =
      some { a with screen := app.Screen.pickTimeCtrl (app.handleTabKey s k)
                    pending := a.pending ++ [app.AppEvent.quit] } ∧
    a.step (app.Event.app app.AppEvent.quit) =
      some { a with running := false } := by
  refine ⟨?_, rfl⟩
  unfold app.App.handle_key_events
  rw [hs]
  rcases hk with hk | hk | ⟨hc, hk | hk⟩
  · rw [hk]
  · rw [hk]
    simp [app.handleTabKey, hk]
  · rw [hk]
    simp only [app.handleTabKey, hk]
    rw [if_neg (by decide), if_pos (by rw [hc]; decide)]
  · rw [hk]
    simp only [app.handleTabKey, hk]
    rw [if_neg (by decide), if_pos (by rw [hc]; decide)]

/-- App in the picker screen used for the C9 witness. -/
def appC9w : app.App :=
  ⟨app.Screen.pickTimeCtrl TimeCtrl.tab1, false, true,
   ⟨40000, 65000, app.ClockTurn.notStarted, 2000, (180000, 2000)⟩, []⟩

/-- Witness for the amended C9: pressing Esc in the picker posts `Quit`,
and handling `Quit` stops the loop. -/
theorem quit_key_in_picker_posts_quit_witness :
    appC9w.screen = app.Screen.pickTimeCtrl TimeCtrl.tab1 ∧
    keyEsc.code = app.KeyCode.esc ∧
    appC9w.handle_key_events keyEsc =
      some { appC9w with
        screen := app.Screen.pickTimeCtrl (app.handleTabKey TimeCtrl.tab1 keyEsc)
        pending := appC9w.pending ++ [app.AppEvent.quit] } ∧
    appC9w.step (app.Event.app app.AppEvent.quit) =
      some { appC9w with running := false } :=
  ⟨rfl, rfl,
   (quit_key_in_picker_posts_quit appC9w TimeCtrl.tab1 keyEsc rfl
     (Or.inl rfl)).1,
   (quit_key_in_picker_posts_quit appC9w TimeCtrl.tab1 keyEsc rfl
     (Or.inl rfl)).2⟩
